import Mathlib

/-!
Verification of the coordinate-transform and batched-geometry core of the
pixistockchart repository.  JavaScript numbers are modelled as exact
rationals (`ℚ`); `Math.floor` is modelled by `Int.floor`; arrays become
`List`s.  Each definition is a shallow embedding of the correspondingly
named source function.
-/

/-- One OHLC record, from the data model (`open` is a Lean keyword, hence
the underscore). -/
structure Candle where
  open_ : ℚ
  high : ℚ
  low : ℚ
  close : ℚ
deriving DecidableEq, Repr

/-- Result record of `calculatePriceRange` (src/unnamed/part_001). -/
structure PriceRange where
  minPrice : ℚ
  maxPrice : ℚ
  priceRange : ℚ
  priceMin : ℚ
  priceMax : ℚ
  priceDiff : ℚ
deriving DecidableEq, Repr

/-- JavaScript `Math.min(x, ...xs)` over a non-empty argument list: the left
fold of binary `min` (the `Infinity` seed of the variadic form is the
identity of `min`, so folding from the first argument is the same value). -/
def jsMinFrom (x : ℚ) (xs : List ℚ) : ℚ := xs.foldl min x

/-- JavaScript `Math.max(x, ...xs)` over a non-empty argument list. -/
def jsMaxFrom (x : ℚ) (xs : List ℚ) : ℚ := xs.foldl max x

/-- Expression `visibleData.flatMap(d => [d.open, d.high, d.low, d.close])` from
`calculatePriceRange` (src/unnamed/part_001, line 24). -/
def priceList (visibleData : List Candle) : List ℚ :=
  visibleData.flatMap fun c => [c.open_, c.high, c.low, c.close]

/-- Function `calculatePriceRange(visibleData, paddingPercent)` from
src/unnamed/part_001 (spread variant, lines 11-41): empty input returns the
all-zero sentinel; otherwise min/max over the flattened
`[open, high, low, close]` price list, with symmetric padding
`priceRange * paddingPercent`. -/
def calculatePriceRange (visibleData : List Candle) (paddingPercent : ℚ) : PriceRange :=
  match visibleData with
  | [] => ⟨0, 0, 0, 0, 0, 0⟩
  | d :: ds =>
    let prices := priceList (d :: ds)
    let minPrice := jsMinFrom d.open_ prices.tail
    let maxPrice := jsMaxFrom d.open_ prices.tail
    let priceRange := maxPrice - minPrice
    let padding := priceRange * paddingPercent
    let priceMin := minPrice - padding
    let priceMax := maxPrice + padding
    let priceDiff := priceMax - priceMin
    ⟨minPrice, maxPrice, priceRange, priceMin, priceMax, priceDiff⟩

/-- Accumulator step of the loop variant of `calculatePriceRange`
(src/unnamed/part_001, lines 145-182): `Math.min(acc, open, high, low, close)`
where `none` stands for the `Infinity` seed. -/
def loopMinStep (acc : Option ℚ) (c : Candle) : Option ℚ :=
  some (match acc with
    | none => min (min c.open_ c.high) (min c.low c.close)
    | some a => min (min (min (min a c.open_) c.high) c.low) c.close)

/-- Accumulator step for the running maximum (`-Infinity` seed is `none`). -/
def loopMaxStep (acc : Option ℚ) (c : Candle) : Option ℚ :=
  some (match acc with
    | none => max (max c.open_ c.high) (max c.low c.close)
    | some a => max (max (max (max a c.open_) c.high) c.low) c.close)

/-- Function `calculatePriceRange`, loop variant (src/unnamed/part_001, lines 145-182):
stack-safe fold over the candles instead of a spread call. -/
def calculatePriceRangeLoop (visibleData : List Candle) (paddingPercent : ℚ) : PriceRange :=
  match visibleData with
  | [] => ⟨0, 0, 0, 0, 0, 0⟩
  | d :: ds =>
    let minPrice := ((d :: ds).foldl loopMinStep none).getD 0
    let maxPrice := ((d :: ds).foldl loopMaxStep none).getD 0
    let priceRange := maxPrice - minPrice
    let padding := priceRange * paddingPercent
    let priceMin := minPrice - padding
    let priceMax := maxPrice + padding
    let priceDiff := priceMax - priceMin
    ⟨minPrice, maxPrice, priceRange, priceMin, priceMax, priceDiff⟩

/-- Function `priceToY(price, priceMin, priceDiff, chartTop, chartHeight)` from
src/unnamed/part_001: `chartTop + chartHeight - ((price - priceMin) / priceDiff) * chartHeight`. -/
def priceToY (price priceMin priceDiff chartTop chartHeight : ℚ) : ℚ :=
  chartTop + chartHeight - ((price - priceMin) / priceDiff) * chartHeight

/-- Function `yToPrice(y, priceMin, priceDiff, chartTop, chartHeight)` from
src/unnamed/part_001: `priceMin + ((chartTop + chartHeight - y) / chartHeight) * priceDiff`. -/
def yToPrice (y priceMin priceDiff chartTop chartHeight : ℚ) : ℚ :=
  let normalizedY := (chartTop + chartHeight - y) / chartHeight
  priceMin + normalizedY * priceDiff

/-- Function `indexToX(index, canvasWidth, marginLeft)` from
src/src/lib/utils/gridUtils/index.js: `marginLeft + (index + 0.5) * canvasWidth`. -/
def indexToX (index canvasWidth marginLeft : ℚ) : ℚ :=
  marginLeft + (index + 1/2) * canvasWidth

/-- Function `xToIndex(x, canvasWidth, marginLeft)` from
src/src/lib/utils/gridUtils/index.js: `Math.floor((x - marginLeft) / canvasWidth)`. -/
def xToIndex (x canvasWidth marginLeft : ℚ) : ℤ :=
  ⌊(x - marginLeft) / canvasWidth⌋

/-- Function `calculateCandleBodyWidth(canvasWidth, minBodyWidth, r)` from
src/src/lib/utils/gridUtils/index.js: `Math.max(minBodyWidth, canvasWidth * r)`
(source default arguments: `minBodyWidth = 2`, body-width fraction `r = 0.8`). -/
def calculateCandleBodyWidth (canvasWidth minBodyWidth bodyWidthFrac : ℚ) : ℚ :=
  max minBodyWidth (canvasWidth * bodyWidthFrac)

/-- Function `constrainCandleWidth(currentWidth, zoomFactor, minWidth, maxWidth,
chartWidth, totalDataCount)` from src/src/lib/utils/gridUtils/index.js.
`chartWidth`/`totalDataCount` default to `null`, modelled by `Option`;
the JS guard `if (chartWidth && totalDataCount && totalDataCount > 0)` is
truthiness on both (a numeric value is truthy iff non-zero) plus the
positivity test.  When the guard passes the dynamic minimum is
`Math.max(0.01, chartWidth / totalDataCount)`; the result is
`Math.max(dynamicMinWidth, Math.min(maxWidth, currentWidth * zoomFactor))`. -/
def constrainCandleWidth (currentWidth zoomFactor minWidth maxWidth : ℚ)
    (chartWidth : Option ℚ) (totalDataCount : Option ℤ) : ℚ :=
  let newWidth := currentWidth * zoomFactor
  let dynamicMinWidth :=
    match chartWidth, totalDataCount with
    | some cw, some n => if cw ≠ 0 ∧ 0 < n then max (1/100) (cw / n) else minWidth
    | _, _ => minWidth
  max dynamicMinWidth (min maxWidth newWidth)

/-- One wheel zoom-out step of the spec scenario: the `handleWheel` call
`constrainCandleWidth(w, 0.5, 0.1, 100, 800, 49072)`
(src/unnamed/part_004, lines 907-914). -/
def zoomOutStep (w : ℚ) : ℚ :=
  constrainCandleWidth w (1/2) (1/10) 100 (some 800) (some 49072)

/-- Pan clamp from `handleMouseMove` (src/src/lib/StockChart.js lines 665-681
and src/unnamed/part_004 line 858): `newStartIndex = startIndex - candlesMoved`
then `Math.max(0, Math.min(dataLength - maxCandles, newStartIndex))`. -/
def panStartIndex (dataLength maxCandles startIndex candlesMoved : ℤ) : ℤ :=
  max 0 (min (dataLength - maxCandles) (startIndex - candlesMoved))

/-- Right-anchored start-index update from `handleWheel`
(src/unnamed/part_004 lines 916-936): `currentEndIndex = startIndex +
oldMaxCandles - 1`, then `Math.max(0, currentEndIndex - newMaxCandles + 1)`. -/
def zoomStartIndex (startIndex oldMaxCandles newMaxCandles : ℤ) : ℤ :=
  max 0 (startIndex + oldMaxCandles - 1 - newMaxCandles + 1)

/-- A wick segment stored by the batch loop of `drawChart`
(src/unnamed/part_004, line 557: `wickLines.push({ x, highY, lowY })`). -/
structure WickSeg where
  x : ℚ
  highY : ℚ
  lowY : ℚ
deriving DecidableEq, Repr

/-- A body rectangle stored by the batch loop of `drawChart`
(src/unnamed/part_004, lines 562-567). -/
structure BodyRect where
  x : ℚ
  y : ℚ
  width : ℚ
  height : ℚ
deriving DecidableEq, Repr

/-- The body rectangle built for one candle in the batch loop
(src/unnamed/part_004, lines 560-567): `bodyTop = Math.min(openY, closeY)`,
`bodyHeight = Math.max(1, Math.abs(closeY - openY))`, positioned at
`x - bodyWidth/2` (same formulas at src/src/lib/StockChart.js lines 447-448). -/
def candleBodyRect (priceScale : ℚ → ℚ) (x bodyWidth : ℚ) (candle : Candle) : BodyRect :=
  let openY := priceScale candle.open_
  let closeY := priceScale candle.close
  let bodyTop := min openY closeY
  let bodyHeight := max 1 |closeY - openY|
  ⟨x - bodyWidth / 2, bodyTop, bodyWidth, bodyHeight⟩

/-- The batch loop of `drawChart` (src/unnamed/part_004, lines 542-574):
for each candle at local index `i`, push one wick segment unconditionally
and push the body rectangle into the bullish bucket when
`close >= open`, into the bearish bucket otherwise.  The loop is modelled
by structural recursion that preserves push order. -/
def batchCandles (priceScale : ℚ → ℚ) (canvasWidth marginLeft bodyWidth : ℚ) :
    ℕ → List Candle → List WickSeg × List BodyRect × List BodyRect
  | _, [] => ([], [], [])
  | i, candle :: rest =>
    let x := indexToX (i : ℚ) canvasWidth marginLeft
    let highY := priceScale candle.high
    let lowY := priceScale candle.low
    let bodyData := candleBodyRect priceScale x bodyWidth candle
    let acc := batchCandles priceScale canvasWidth marginLeft bodyWidth (i + 1) rest
    if candle.close ≥ candle.open_ then
      (⟨x, highY, lowY⟩ :: acc.1, bodyData :: acc.2.1, acc.2.2)
    else
      (⟨x, highY, lowY⟩ :: acc.1, acc.2.1, bodyData :: acc.2.2)

/-- The full batching pass of `drawChart` (src/unnamed/part_004): the body
width is `calculateCandleBodyWidth(canvasWidth, 2, 0.8)` computed once
outside the loop (line 531), then the loop runs from local index 0. -/
def drawChartBatch (visibleData : List Candle) (priceScale : ℚ → ℚ)
    (canvasWidth marginLeft : ℚ) : List WickSeg × List BodyRect × List BodyRect :=
  batchCandles priceScale canvasWidth marginLeft
    (calculateCandleBodyWidth canvasWidth 2 (4/5)) 0 visibleData

/-- One accumulated graphics command of the single `masterGraphics` object
(`moveTo`/`lineTo`/`rect` accumulate geometry; `stroke`/`fill` are the draw
submissions that flush everything accumulated since the previous one). -/
inductive GfxCmd where
  | moveTo (x y : ℚ)
  | lineTo (x y : ℚ)
  | rect (x y w h : ℚ)
  | stroke (width : ℚ) (color : ℕ)
  | fill (color : ℕ)
deriving DecidableEq, Repr

/-- Whether a graphics command is a draw submission (a `stroke` or `fill`). -/
def isDrawSubmission : GfxCmd → Bool
  | .stroke _ _ => true
  | .fill _ => true
  | _ => false

/-- Wick drawing of `drawChart` (src/unnamed/part_004, lines 579-585): when the
wick bucket is non-empty, `moveTo`/`lineTo` every wick and then a single
`stroke({ width: 1, color: 0x666666 })`. -/
def drawAllWicks (wickLines : List WickSeg) : List GfxCmd :=
  if wickLines.length > 0 then
    (wickLines.flatMap fun w => [GfxCmd.moveTo w.x w.highY, GfxCmd.lineTo w.x w.lowY])
      ++ [GfxCmd.stroke 1 0x666666]
  else []

/-- Body drawing of `drawChart` (src/unnamed/part_004, lines 587-601): when the
bucket is non-empty, `rect` every body and then a single `fill(color)`. -/
def drawAllBodies (bodies : List BodyRect) (color : ℕ) : List GfxCmd :=
  if bodies.length > 0 then
    (bodies.map fun b => GfxCmd.rect b.x b.y b.width b.height) ++ [GfxCmd.fill color]
  else []

/-- The command stream issued on `masterGraphics` by one batched render pass
(src/unnamed/part_004, lines 577-602): all wicks stroked gray, all bullish
bodies filled `0x00dd88`, all bearish bodies filled `0xdd4444`. -/
def drawChartBatched (visibleData : List Candle) (priceScale : ℚ → ℚ)
    (canvasWidth marginLeft : ℚ) : List GfxCmd :=
  let batch := drawChartBatch visibleData priceScale canvasWidth marginLeft
  drawAllWicks batch.1 ++ drawAllBodies batch.2.1 0x00dd88
    ++ drawAllBodies batch.2.2 0xdd4444

/-- Number of draw submissions in a command stream. -/
def countDrawSubmissions (cmds : List GfxCmd) : ℕ :=
  (cmds.filter isDrawSubmission).length

/-- The viewport fields mutated by `handleWheel`
(src/unnamed/part_004): `startIndex`, `maxCandles`, `canvasWidth`. -/
structure ViewState where
  startIndex : ℤ
  maxCandles : ℤ
  canvasWidth : ℚ
deriving DecidableEq, Repr

/-- The zoom mutation of `handleWheel` (src/unnamed/part_004, lines 907-936):
constrain the new candle width with dynamic arguments
`constrainCandleWidth(w, zoomFactor, 0.1, 100, chartWidth, totalDataCount)`;
when it changed, recompute `maxCandles = Math.floor(chartWidth / newWidth)`
and right-anchor the start index. -/
def handleWheelZoom (vs : ViewState) (chartWidth : ℚ) (totalDataCount : ℤ)
    (zoomFactor : ℚ) : ViewState :=
  let newCandleWidth := constrainCandleWidth vs.canvasWidth zoomFactor (1/10) 100
    (some chartWidth) (some totalDataCount)
  if newCandleWidth = vs.canvasWidth then vs
  else
    let newMaxCandles := ⌊chartWidth / newCandleWidth⌋
    { startIndex := zoomStartIndex vs.startIndex vs.maxCandles newMaxCandles,
      maxCandles := newMaxCandles,
      canvasWidth := newCandleWidth }

/-- The only guard on the visible slice before the per-candle Y computation
in `drawChart` (src/src/lib/StockChart.js, `if (visibleData.length === 0)
return;`); no guard inspects `priceDiff`. -/
def drawChartEarlyReturn (visibleData : List Candle) : Bool :=
  visibleData.length == 0

/-- The per-candle Y coordinates computed by `drawChart`
(src/src/lib/StockChart.js lines 430-434) through `priceToY`, whose
denominator is the frame's `priceDiff`. -/
def drawChartCandleYs (candle : Candle) (priceMin priceDiff chartTop chartHeight : ℚ) :
    ℚ × ℚ × ℚ × ℚ :=
  (priceToY candle.open_ priceMin priceDiff chartTop chartHeight,
   priceToY candle.close priceMin priceDiff chartTop chartHeight,
   priceToY candle.high priceMin priceDiff chartTop chartHeight,
   priceToY candle.low priceMin priceDiff chartTop chartHeight)

/-- The 3-candle scenario dataset of the spec:
`[{o:10,h:12,l:9,c:11}, {o:11,h:14,l:10,c:13}, {o:13,h:13,l:8,c:9}]`. -/
def threeCandles : List Candle :=
  [⟨10, 12, 9, 11⟩, ⟨11, 14, 10, 13⟩, ⟨13, 13, 8, 9⟩]

/-- C2: round-trip of the price scale — for every price `p` and all
parameters with `priceDiff ≠ 0` and `chartHeight ≠ 0`,
`yToPrice (priceToY p ...) ... = p` exactly over exact arithmetic. -/
theorem yToPrice_priceToY_roundtrip (p priceMin priceDiff chartTop chartHeight : ℚ)
    (hd : priceDiff ≠ 0) (hh : chartHeight ≠ 0) :
    yToPrice (priceToY p priceMin priceDiff chartTop chartHeight)
      priceMin priceDiff chartTop chartHeight = p := by
  unfold yToPrice priceToY
  field_simp
  ring

/-- Witness for C2 at a concrete input. -/
theorem yToPrice_priceToY_roundtrip_case :
    yToPrice (priceToY (21/2) (37/5) (36/5) 50 400) (37/5) (36/5) 50 400 = 21/2 :=
  yToPrice_priceToY_roundtrip (21/2) (37/5) (36/5) 50 400 (by norm_num) (by norm_num)

/-- C9: index round-trip — for every natural index `i`, positive
`canvasWidth` and arbitrary `marginLeft`,
`xToIndex (indexToX i canvasWidth marginLeft) canvasWidth marginLeft = i`. -/
theorem xToIndex_indexToX_roundtrip (i : ℕ) (canvasWidth marginLeft : ℚ)
    (hw : 0 < canvasWidth) :
    xToIndex (indexToX (i : ℚ) canvasWidth marginLeft) canvasWidth marginLeft = (i : ℤ) := by
  unfold xToIndex indexToX
  have hne : canvasWidth ≠ 0 := ne_of_gt hw
  have h1 : (marginLeft + ((i : ℚ) + 1/2) * canvasWidth - marginLeft) / canvasWidth
      = (i : ℚ) + 1/2 := by field_simp; ring
  rw [h1]
  rw [Int.floor_eq_iff]
  constructor
  · push_cast; linarith
  · push_cast; linarith

/-- Witness for C9 at a concrete input. -/
theorem xToIndex_indexToX_roundtrip_case :
    xToIndex (indexToX (7 : ℚ) (5/2) 20) (5/2) 20 = 7 := by
  have h := xToIndex_indexToX_roundtrip 7 (5/2) 20 (by norm_num)
  simpa using h

theorem jsMinFrom_cons (x y : ℚ) (ys : List ℚ) :
    jsMinFrom x (y :: ys) = jsMinFrom (min x y) ys := rfl

theorem jsMaxFrom_cons (x y : ℚ) (ys : List ℚ) :
    jsMaxFrom x (y :: ys) = jsMaxFrom (max x y) ys := rfl

theorem jsMinFrom_le (x : ℚ) (xs : List ℚ) : ∀ q ∈ x :: xs, jsMinFrom x xs ≤ q := by
  induction xs generalizing x with
  | nil =>
    intro q hq
    rcases List.mem_singleton.mp hq with rfl
    exact le_refl _
  | cons y ys ih =>
    intro q hq
    rw [jsMinFrom_cons]
    rcases List.mem_cons.mp hq with rfl | hq'
    · exact le_trans (ih (min q y) (min q y) (List.mem_cons_self _ _)) (min_le_left _ _)
    · rcases List.mem_cons.mp hq' with rfl | hq''
      · exact le_trans (ih (min x q) (min x q) (List.mem_cons_self _ _)) (min_le_right _ _)
      · exact ih (min x y) q (List.mem_cons_of_mem _ hq'')

theorem jsMaxFrom_le (x : ℚ) (xs : List ℚ) : ∀ q ∈ x :: xs, q ≤ jsMaxFrom x xs := by
  induction xs generalizing x with
  | nil =>
    intro q hq
    rcases List.mem_singleton.mp hq with rfl
    exact le_refl _
  | cons y ys ih =>
    intro q hq
    rw [jsMaxFrom_cons]
    rcases List.mem_cons.mp hq with rfl | hq'
    · exact le_trans (le_max_left _ _) (ih (max q y) (max q y) (List.mem_cons_self _ _))
    · rcases List.mem_cons.mp hq' with rfl | hq''
      · exact le_trans (le_max_right _ _) (ih (max x q) (max x q) (List.mem_cons_self _ _))
      · exact ih (max x y) q (List.mem_cons_of_mem _ hq'')

theorem jsMinFrom_mem (x : ℚ) (xs : List ℚ) : jsMinFrom x xs ∈ x :: xs := by
  induction xs generalizing x with
  | nil => simp [jsMinFrom]
  | cons y ys ih =>
    rw [jsMinFrom_cons]
    rcases List.mem_cons.mp (ih (min x y)) with h | h
    · rcases min_choice x y with hm | hm
      · exact List.mem_cons.mpr (Or.inl (h.trans hm))
      · exact List.mem_cons.mpr (Or.inr (List.mem_cons.mpr (Or.inl (h.trans hm))))
    · exact List.mem_cons.mpr (Or.inr (List.mem_cons.mpr (Or.inr h)))

theorem jsMaxFrom_mem (x : ℚ) (xs : List ℚ) : jsMaxFrom x xs ∈ x :: xs := by
  induction xs generalizing x with
  | nil => simp [jsMaxFrom]
  | cons y ys ih =>
    rw [jsMaxFrom_cons]
    rcases List.mem_cons.mp (ih (max x y)) with h | h
    · rcases max_choice x y with hm | hm
      · exact List.mem_cons.mpr (Or.inl (h.trans hm))
      · exact List.mem_cons.mpr (Or.inr (List.mem_cons.mpr (Or.inl (h.trans hm))))
    · exact List.mem_cons.mpr (Or.inr (List.mem_cons.mpr (Or.inr h)))

theorem priceList_cons (d : Candle) (ds : List Candle) :
    priceList (d :: ds) = d.open_ :: d.high :: d.low :: d.close :: priceList ds := rfl

theorem loopMin_fold (ds : List Candle) (a : ℚ) :
    ds.foldl loopMinStep (some a) = some (jsMinFrom a (priceList ds)) := by
  induction ds generalizing a with
  | nil => rfl
  | cons c cs ih =>
    rw [List.foldl_cons, priceList_cons]
    rw [jsMinFrom_cons, jsMinFrom_cons, jsMinFrom_cons, jsMinFrom_cons]
    exact ih _

theorem loopMax_fold (ds : List Candle) (a : ℚ) :
    ds.foldl loopMaxStep (some a) = some (jsMaxFrom a (priceList ds)) := by
  induction ds generalizing a with
  | nil => rfl
  | cons c cs ih =>
    rw [List.foldl_cons, priceList_cons]
    rw [jsMaxFrom_cons, jsMaxFrom_cons, jsMaxFrom_cons, jsMaxFrom_cons]
    exact ih _

theorem calculatePriceRangeLoop_eq (visibleData : List Candle) (p : ℚ) :
    calculatePriceRangeLoop visibleData p = calculatePriceRange visibleData p := by
  cases visibleData with
  | nil => rfl
  | cons d ds =>
    unfold calculatePriceRangeLoop calculatePriceRange
    have hmin : (d :: ds).foldl loopMinStep none
        = some (jsMinFrom d.open_ (priceList (d :: ds)).tail) := by
      rw [List.foldl_cons]
      show ds.foldl loopMinStep (some (min (min d.open_ d.high) (min d.low d.close))) = _
      rw [loopMin_fold, priceList_cons]
      show _ = some (jsMinFrom d.open_ (d.high :: d.low :: d.close :: priceList ds))
      rw [jsMinFrom_cons, jsMinFrom_cons, jsMinFrom_cons]
      rw [min_assoc (min d.open_ d.high) d.low d.close]
    have hmax : (d :: ds).foldl loopMaxStep none
        = some (jsMaxFrom d.open_ (priceList (d :: ds)).tail) := by
      rw [List.foldl_cons]
      show ds.foldl loopMaxStep (some (max (max d.open_ d.high) (max d.low d.close))) = _
      rw [loopMax_fold, priceList_cons]
      show _ = some (jsMaxFrom d.open_ (d.high :: d.low :: d.close :: priceList ds))
      rw [jsMaxFrom_cons, jsMaxFrom_cons, jsMaxFrom_cons]
      rw [max_assoc (max d.open_ d.high) d.low d.close]
    simp only [hmin, hmax, Option.getD_some]

/-- C6: `calculatePriceRange` returns the all-zero sentinel on an empty
slice; on a non-empty slice `minPrice`/`maxPrice` are the minimum/maximum
over all `open`, `high`, `low`, `close` fields, with symmetric padding
`priceMin = minPrice - p*(maxPrice - minPrice)`,
`priceMax = maxPrice + p*(maxPrice - minPrice)` and
`priceDiff = priceMax - priceMin`; the loop variant computes the same
record, and on the 3-candle scenario dataset with `p = 0.1` the result is
`priceMin = 7.4`, `priceMax = 14.6`, `priceDiff = 7.2`. -/
theorem calculatePriceRange_correct (p : ℚ) (d : Candle) (ds : List Candle) :
    calculatePriceRange [] p = ⟨0, 0, 0, 0, 0, 0⟩ ∧
    (calculatePriceRange (d :: ds) p).minPrice ∈ priceList (d :: ds) ∧
    (∀ q ∈ priceList (d :: ds), (calculatePriceRange (d :: ds) p).minPrice ≤ q) ∧
    (calculatePriceRange (d :: ds) p).maxPrice ∈ priceList (d :: ds) ∧
    (∀ q ∈ priceList (d :: ds), q ≤ (calculatePriceRange (d :: ds) p).maxPrice) ∧
    (calculatePriceRange (d :: ds) p).priceMin
      = (calculatePriceRange (d :: ds) p).minPrice
        - ((calculatePriceRange (d :: ds) p).maxPrice
            - (calculatePriceRange (d :: ds) p).minPrice) * p ∧
    (calculatePriceRange (d :: ds) p).priceMax
      = (calculatePriceRange (d :: ds) p).maxPrice
        + ((calculatePriceRange (d :: ds) p).maxPrice
            - (calculatePriceRange (d :: ds) p).minPrice) * p ∧
    (calculatePriceRange (d :: ds) p).priceDiff
      = (calculatePriceRange (d :: ds) p).priceMax
        - (calculatePriceRange (d :: ds) p).priceMin ∧
    calculatePriceRangeLoop (d :: ds) p = calculatePriceRange (d :: ds) p ∧
    calculatePriceRange threeCandles (1/10) = ⟨8, 14, 6, 37/5, 73/5, 36/5⟩ := by
  have hlist : priceList (d :: ds)
      = d.open_ :: (priceList (d :: ds)).tail := by rw [priceList_cons]; rfl
  refine ⟨rfl, ?_, ?_, ?_, ?_, rfl, rfl, rfl, calculatePriceRangeLoop_eq _ _, ?sc⟩
  case sc =>
    norm_num [calculatePriceRange, threeCandles, priceList, jsMinFrom, jsMaxFrom, List.foldl,
      min_def, max_def]
  · show jsMinFrom d.open_ (priceList (d :: ds)).tail ∈ priceList (d :: ds)
    rw [hlist]; exact jsMinFrom_mem _ _
  · intro q hq
    rw [hlist] at hq
    exact jsMinFrom_le _ _ q hq
  · show jsMaxFrom d.open_ (priceList (d :: ds)).tail ∈ priceList (d :: ds)
    rw [hlist]; exact jsMaxFrom_mem _ _
  · intro q hq
    rw [hlist] at hq
    exact jsMaxFrom_le _ _ q hq

/-- Witness for C6 at a concrete input. -/
theorem calculatePriceRange_correct_case :
    (calculatePriceRange threeCandles (1/10)).minPrice ≤ 12 :=
  (calculatePriceRange_correct (1/10) ⟨10, 12, 9, 11⟩
    [⟨11, 14, 10, 13⟩, ⟨13, 13, 8, 9⟩]).2.2.1 12 (by decide)

theorem batchCandles_lengths (s : ℚ → ℚ) (cw ml bw : ℚ) (i : ℕ) (l : List Candle) :
    (batchCandles s cw ml bw i l).1.length = l.length ∧
    (batchCandles s cw ml bw i l).2.1.length
      = (l.filter fun c => decide (c.close ≥ c.open_)).length ∧
    (batchCandles s cw ml bw i l).2.2.length
      = (l.filter fun c => !decide (c.close ≥ c.open_)).length := by
  induction l generalizing i with
  | nil => simp [batchCandles]
  | cons c rest ih =>
    rcases ih (i + 1) with ⟨h1, h2, h3⟩
    by_cases h : c.close ≥ c.open_
    · simp [batchCandles, h, h1, h2, h3, List.filter_cons]
    · simp [batchCandles, h, h1, h2, h3, List.filter_cons]

theorem countDrawSubmissions_append (a b : List GfxCmd) :
    countDrawSubmissions (a ++ b) = countDrawSubmissions a + countDrawSubmissions b := by
  simp [countDrawSubmissions, List.filter_append]

theorem countDrawSubmissions_wickCmds (ws : List WickSeg) :
    countDrawSubmissions
      (ws.flatMap fun w => [GfxCmd.moveTo w.x w.highY, GfxCmd.lineTo w.x w.lowY]) = 0 := by
  induction ws with
  | nil => rfl
  | cons w ws ih =>
    rw [List.flatMap_cons, countDrawSubmissions_append, ih]
    rfl

theorem countDrawSubmissions_rectCmds (bs : List BodyRect) :
    countDrawSubmissions (bs.map fun b => GfxCmd.rect b.x b.y b.width b.height) = 0 := by
  induction bs with
  | nil => rfl
  | cons b bs ih =>
    rw [List.map_cons]
    show countDrawSubmissions ([GfxCmd.rect b.x b.y b.width b.height] ++ _) = 0
    rw [countDrawSubmissions_append, ih]
    rfl

theorem countDrawSubmissions_drawAllWicks (ws : List WickSeg) :
    countDrawSubmissions (drawAllWicks ws) = if ws = [] then 0 else 1 := by
  cases ws with
  | nil => rfl
  | cons w ws =>
    rw [drawAllWicks]
    simp only [List.length_cons, if_pos (Nat.succ_pos _)]
    rw [countDrawSubmissions_append, countDrawSubmissions_wickCmds]
    rfl

theorem countDrawSubmissions_drawAllBodies (bs : List BodyRect) (color : ℕ) :
    countDrawSubmissions (drawAllBodies bs color) = if bs = [] then 0 else 1 := by
  cases bs with
  | nil => rfl
  | cons b bs =>
    rw [drawAllBodies]
    simp only [List.length_cons, if_pos (Nat.succ_pos _)]
    rw [countDrawSubmissions_append, countDrawSubmissions_rectCmds]
    rfl

/-- C1: one pass of the batched render path emits at most 3 draw
submissions for any visible slice of `K ≤ 50000` candles: the submission
count equals the number of non-empty buckets (wick stroke, bullish fill,
bearish fill), each contributing exactly one submission and skipped when
empty, and the wick bucket covers all `K` candles — so the count never
grows with `K`. -/
theorem drawChart_drawCall_invariant (visibleData : List Candle) (priceScale : ℚ → ℚ)
    (canvasWidth marginLeft : ℚ) (hK : visibleData.length ≤ 50000) :
    countDrawSubmissions (drawChartBatched visibleData priceScale canvasWidth marginLeft)
      = (if (drawChartBatch visibleData priceScale canvasWidth marginLeft).1 = []
          then 0 else 1)
        + (if (drawChartBatch visibleData priceScale canvasWidth marginLeft).2.1 = []
            then 0 else 1)
        + (if (drawChartBatch visibleData priceScale canvasWidth marginLeft).2.2 = []
            then 0 else 1) ∧
    countDrawSubmissions (drawChartBatched visibleData priceScale canvasWidth marginLeft)
      ≤ 3 ∧
    (drawChartBatch visibleData priceScale canvasWidth marginLeft).1.length
      = visibleData.length := by
  have hcnt : countDrawSubmissions (drawChartBatched visibleData priceScale canvasWidth marginLeft)
      = (if (drawChartBatch visibleData priceScale canvasWidth marginLeft).1 = []
          then 0 else 1)
        + (if (drawChartBatch visibleData priceScale canvasWidth marginLeft).2.1 = []
            then 0 else 1)
        + (if (drawChartBatch visibleData priceScale canvasWidth marginLeft).2.2 = []
            then 0 else 1) := by
    show countDrawSubmissions
        (drawAllWicks (drawChartBatch visibleData priceScale canvasWidth marginLeft).1
          ++ drawAllBodies (drawChartBatch visibleData priceScale canvasWidth marginLeft).2.1 0x00dd88
          ++ drawAllBodies (drawChartBatch visibleData priceScale canvasWidth marginLeft).2.2 0xdd4444) = _
    rw [countDrawSubmissions_append, countDrawSubmissions_append,
      countDrawSubmissions_drawAllWicks, countDrawSubmissions_drawAllBodies,
      countDrawSubmissions_drawAllBodies]
  refine ⟨hcnt, ?_, (batchCandles_lengths priceScale canvasWidth marginLeft _ 0 visibleData).1⟩
  rw [hcnt]
  split_ifs <;> norm_num

/-- Witness for C1 at a concrete input. -/
theorem drawChart_drawCall_invariant_case :
    countDrawSubmissions (drawChartBatched threeCandles (fun q => q) 10 0) ≤ 3 :=
  (drawChart_drawCall_invariant threeCandles (fun q => q) 10 0 (by decide)).2.1

/-- C7: the batch loop appends exactly one wick segment per visible candle
unconditionally, and routes the body rectangle to the bullish bucket iff
`close >= open` (equality counts as bullish), else to the bearish bucket;
on the 3-candle scenario dataset the bucket sizes are wicks = 3,
bullish = 2, bearish = 1. -/
theorem batch_classification (visibleData : List Candle) (priceScale : ℚ → ℚ)
    (canvasWidth marginLeft : ℚ) :
    (drawChartBatch visibleData priceScale canvasWidth marginLeft).1.length
      = visibleData.length ∧
    (drawChartBatch visibleData priceScale canvasWidth marginLeft).2.1.length
      = (visibleData.filter fun c => decide (c.close ≥ c.open_)).length ∧
    (drawChartBatch visibleData priceScale canvasWidth marginLeft).2.2.length
      = (visibleData.filter fun c => !decide (c.close ≥ c.open_)).length ∧
    (drawChartBatch threeCandles priceScale canvasWidth marginLeft).1.length = 3 ∧
    (drawChartBatch threeCandles priceScale canvasWidth marginLeft).2.1.length = 2 ∧
    (drawChartBatch threeCandles priceScale canvasWidth marginLeft).2.2.length = 1 := by
  rcases batchCandles_lengths priceScale canvasWidth marginLeft
    (calculateCandleBodyWidth canvasWidth 2 (4/5)) 0 visibleData with ⟨h1, h2, h3⟩
  rcases batchCandles_lengths priceScale canvasWidth marginLeft
    (calculateCandleBodyWidth canvasWidth 2 (4/5)) 0 threeCandles with ⟨g1, g2, g3⟩
  refine ⟨h1, h2, h3, ?_, ?_, ?_⟩
  · rw [show (drawChartBatch threeCandles priceScale canvasWidth marginLeft).1.length
        = (batchCandles priceScale canvasWidth marginLeft
            (calculateCandleBodyWidth canvasWidth 2 (4/5)) 0 threeCandles).1.length from rfl, g1]
    rfl
  · rw [show (drawChartBatch threeCandles priceScale canvasWidth marginLeft).2.1.length
        = (batchCandles priceScale canvasWidth marginLeft
            (calculateCandleBodyWidth canvasWidth 2 (4/5)) 0 threeCandles).2.1.length from rfl, g2]
    norm_num [threeCandles, List.filter_cons]
  · rw [show (drawChartBatch threeCandles priceScale canvasWidth marginLeft).2.2.length
        = (batchCandles priceScale canvasWidth marginLeft
            (calculateCandleBodyWidth canvasWidth 2 (4/5)) 0 threeCandles).2.2.length from rfl, g3]
    norm_num [threeCandles, List.filter_cons]

/-- C8: every generated body rectangle has top `min(openY, closeY)` and
height `max(1, abs(closeY - openY))`; for a doji candle (`open == close`)
the height is exactly 1, never 0. -/
theorem candleBodyRect_doji (priceScale : ℚ → ℚ) (x bodyWidth : ℚ) (candle : Candle) :
    (candleBodyRect priceScale x bodyWidth candle).y
      = min (priceScale candle.open_) (priceScale candle.close) ∧
    (candleBodyRect priceScale x bodyWidth candle).height
      = max 1 |priceScale candle.close - priceScale candle.open_| ∧
    (candle.open_ = candle.close →
      (candleBodyRect priceScale x bodyWidth candle).height = 1) := by
  refine ⟨rfl, rfl, fun h => ?_⟩
  simp [candleBodyRect, h]

/-- Witness for C8 at a concrete doji candle. -/
theorem candleBodyRect_doji_case :
    (candleBodyRect (fun q => q) 5 2 ⟨10, 12, 9, 10⟩).height = 1 :=
  (candleBodyRect_doji (fun q => q) 5 2 ⟨10, 12, 9, 10⟩).2.2 rfl

theorem constrainCandleWidth_dyn (w z minW maxW cw : ℚ) (n : ℤ)
    (hcw : cw ≠ 0) (hn : 0 < n) :
    constrainCandleWidth w z minW maxW (some cw) (some n)
      = max (max (1/100) (cw / n)) (min maxW (w * z)) := by
  unfold constrainCandleWidth
  simp [hcw, hn]

/-- C3 (amended): the pan clamp keeps `startIndex` inside
`[0, max(0, N - visibleCount)]` unconditionally, and at the right edge
(`N = 100`, `visibleCount = 72`, `startIndex = 28`) any pan toward higher
indices leaves it at 28; the right-anchored wheel zoom preserves the
invariant provided the pre-zoom `visibleCount` does not exceed `N` (without
that proviso the zoom can overshoot, see the counterexample). -/
theorem viewport_clamp_invariant (N maxC s d oldMax newMax s0 : ℤ)
    (hs0 : 0 ≤ s0) (hinv : s0 ≤ max 0 (N - oldMax)) (hfit : oldMax ≤ N) :
    (0 ≤ panStartIndex N maxC s d ∧ panStartIndex N maxC s d ≤ max 0 (N - maxC)) ∧
    (0 ≤ zoomStartIndex s0 oldMax newMax ∧
      zoomStartIndex s0 oldMax newMax ≤ max 0 (N - newMax)) ∧
    (∀ delta : ℤ, delta ≤ 0 → panStartIndex 100 72 28 delta = 28) := by
  unfold panStartIndex zoomStartIndex
  refine ⟨⟨?_, ?_⟩, ⟨?_, ?_⟩, fun delta hd => ?_⟩ <;> omega

/-- Witness for the amended C3 at a concrete input. -/
theorem viewport_clamp_invariant_case : panStartIndex 100 72 28 (-3) = 28 :=
  (viewport_clamp_invariant 100 72 28 (-3) 50 60 20 (by decide) (by decide)
    (by decide)).2.2 (-3) (by decide)

/-- Counterexample to C3 as stated: the viewport state `startIndex = 0`,
`maxCandles = 80`, `canvasWidth = 10` over a dataset of length `N = 10`
satisfies the claimed invariant (`max 0 (10 - 80) = 0`), yet one wheel
zoom-in (factor 1.2) produces `startIndex = 70`, `maxCandles = 10`, and
`70 > max 0 (10 - 10) = 0`. -/
theorem viewport_zoom_clamp_cex :
    (0 : ℤ) ≤ max 0 (10 - 80) ∧
    (handleWheelZoom ⟨0, 80, 10⟩ 800 10 (6/5)).startIndex = 70 ∧
    (handleWheelZoom ⟨0, 80, 10⟩ 800 10 (6/5)).maxCandles = 10 ∧
    ¬((handleWheelZoom ⟨0, 80, 10⟩ 800 10 (6/5)).startIndex
        ≤ max 0 (10 - (handleWheelZoom ⟨0, 80, 10⟩ 800 10 (6/5)).maxCandles)) := by
  have hw : constrainCandleWidth 10 (6/5) (1/10) 100 (some 800) (some 10) = 80 := by
    rw [constrainCandleWidth_dyn 10 (6/5) (1/10) 100 800 10 (by norm_num) (by norm_num)]
    norm_num [max_def, min_def]
  have hvs : handleWheelZoom ⟨0, 80, 10⟩ 800 10 (6/5)
      = ⟨zoomStartIndex 0 80 ⌊(800:ℚ)/80⌋, ⌊(800:ℚ)/80⌋, 80⟩ := by
    unfold handleWheelZoom
    rw [hw]
    norm_num
  rw [hvs]
  refine ⟨by decide, ?_, ?_, ?_⟩ <;> norm_num [zoomStartIndex]

/-- Counterexample to C4 as stated: with `chartWidth = 800`,
`N = 100000` the code's dynamic floor is `max(0.01, chartWidth/N) = 0.01`,
not `chartWidth/N = 0.008`; at `currentWidth = 1`, `zoomFactor = 0.001`
the code returns `0.01`, while clamping into `[chartWidth/N, maxWidth]`
would return `0.008`. -/
theorem constrainCandleWidth_cex :
    constrainCandleWidth 1 (1/1000) (1/10) 100 (some 800) (some 100000) = 1/100 ∧
    max ((800 : ℚ) / 100000) (min 100 (1 * (1/1000))) = 1/125 ∧
    (1 : ℚ)/100 ≠ 1/125 := by
  refine ⟨?_, by norm_num [max_def, min_def], by norm_num⟩
  rw [constrainCandleWidth_dyn 1 (1/1000) (1/10) 100 800 100000 (by norm_num) (by norm_num)]
  norm_num [max_def, min_def]

/-- C4 (amended): with positive dynamic arguments supplied, the result is
`currentWidth * zoomFactor` clamped into `[max(0.01, chartWidth/N), maxWidth]`
with the floor taking precedence, hence never below `chartWidth / N`; and
repeatedly zooming out by factor 0.5 from width 20 at `chartWidth = 800`,
`N = 49072` reaches exactly the floor `800/49072` after 11 steps and stays
there. -/
theorem constrainCandleWidth_floor (w z minW maxW cw : ℚ) (n : ℤ)
    (hcw : 0 < cw) (hn : 0 < n) :
    constrainCandleWidth w z minW maxW (some cw) (some n)
      = max (max (1/100) (cw / n)) (min maxW (w * z)) ∧
    cw / n ≤ constrainCandleWidth w z minW maxW (some cw) (some n) ∧
    zoomOutStep^[11] 20 = 800 / 49072 ∧
    zoomOutStep (800 / 49072) = 800 / 49072 := by
  have hchar := constrainCandleWidth_dyn w z minW maxW cw n hcw.ne' hn
  have hstep : ∀ w' : ℚ, zoomOutStep w' = max (50/3067) (min 100 (w' * (1/2))) := by
    intro w'
    unfold zoomOutStep
    rw [constrainCandleWidth_dyn w' (1/2) (1/10) 100 800 49072 (by norm_num) (by norm_num)]
    congr 1
    norm_num [max_def]
  have e1 : zoomOutStep 20 = 10 := by rw [hstep]; norm_num [max_def, min_def]
  have e2 : zoomOutStep 10 = 5 := by rw [hstep]; norm_num [max_def, min_def]
  have e3 : zoomOutStep 5 = 5/2 := by rw [hstep]; norm_num [max_def, min_def]
  have e4 : zoomOutStep (5/2) = 5/4 := by rw [hstep]; norm_num [max_def, min_def]
  have e5 : zoomOutStep (5/4) = 5/8 := by rw [hstep]; norm_num [max_def, min_def]
  have e6 : zoomOutStep (5/8) = 5/16 := by rw [hstep]; norm_num [max_def, min_def]
  have e7 : zoomOutStep (5/16) = 5/32 := by rw [hstep]; norm_num [max_def, min_def]
  have e8 : zoomOutStep (5/32) = 5/64 := by rw [hstep]; norm_num [max_def, min_def]
  have e9 : zoomOutStep (5/64) = 5/128 := by rw [hstep]; norm_num [max_def, min_def]
  have e10 : zoomOutStep (5/128) = 5/256 := by rw [hstep]; norm_num [max_def, min_def]
  have e11 : zoomOutStep (5/256) = 50/3067 := by rw [hstep]; norm_num [max_def, min_def]
  have efix : zoomOutStep (800/49072) = 800/49072 := by
    rw [hstep]; norm_num [max_def, min_def]
  refine ⟨hchar, ?_, ?_, efix⟩
  · rw [hchar]
    exact le_trans (le_trans (le_max_right (1/100) (cw / n)) (le_max_left _ _))
      (le_refl _)
  · rw [show (11:ℕ) = 10+1 from rfl, Function.iterate_succ_apply, e1,
      show (10:ℕ) = 9+1 from rfl, Function.iterate_succ_apply, e2,
      show (9:ℕ) = 8+1 from rfl, Function.iterate_succ_apply, e3,
      show (8:ℕ) = 7+1 from rfl, Function.iterate_succ_apply, e4,
      show (7:ℕ) = 6+1 from rfl, Function.iterate_succ_apply, e5,
      show (6:ℕ) = 5+1 from rfl, Function.iterate_succ_apply, e6,
      show (5:ℕ) = 4+1 from rfl, Function.iterate_succ_apply, e7,
      show (4:ℕ) = 3+1 from rfl, Function.iterate_succ_apply, e8,
      show (3:ℕ) = 2+1 from rfl, Function.iterate_succ_apply, e9,
      show (2:ℕ) = 1+1 from rfl, Function.iterate_succ_apply, e10,
      show (1:ℕ) = 0+1 from rfl, Function.iterate_succ_apply, e11,
      Function.iterate_zero_apply]
    norm_num

/-- Witness for the amended C4 at a concrete input. -/
theorem constrainCandleWidth_floor_case :
    (800 : ℚ) / 49072
      ≤ constrainCandleWidth 20 (1/2) (1/10) 100 (some 800) (some 49072) :=
  (constrainCandleWidth_floor 20 (1/2) (1/10) 100 800 49072 (by norm_num)
    (by norm_num)).2.1

/-- C10: with `minWidth > 0`, `constrainCandleWidth` returns a strictly
positive width for every `currentWidth` and `zoomFactor` (zero and negative
factors included): without dynamic arguments the result is at least
`minWidth`, and with positive `chartWidth` and `totalDataCount` supplied it
is at least `max(0.01, chartWidth / totalDataCount)`; so the candle-width
state can never become zero or negative and downstream divisions by it are
well-defined. -/
theorem constrainCandleWidth_pos (w z minW maxW cw : ℚ) (n : ℤ)
    (hmin : 0 < minW) (hcw : 0 < cw) (hn : 0 < n) :
    minW ≤ constrainCandleWidth w z minW maxW none none ∧
    0 < constrainCandleWidth w z minW maxW none none ∧
    max (1/100) (cw / n) ≤ constrainCandleWidth w z minW maxW (some cw) (some n) ∧
    0 < constrainCandleWidth w z minW maxW (some cw) (some n) := by
  have h1 : constrainCandleWidth w z minW maxW none none
      = max minW (min maxW (w * z)) := rfl
  have h2 := constrainCandleWidth_dyn w z minW maxW cw n hcw.ne' hn
  have h100 : (0:ℚ) < 1/100 := by norm_num
  refine ⟨?_, ?_, ?_, ?_⟩
  · rw [h1]; exact le_max_left _ _
  · rw [h1]; exact lt_of_lt_of_le hmin (le_max_left _ _)
  · rw [h2]; exact le_max_left _ _
  · rw [h2]
    exact lt_of_lt_of_le h100 (le_trans (le_max_left _ _) (le_max_left _ _))

/-- Witness for C10 at a concrete input (zoom factor 0). -/
theorem constrainCandleWidth_pos_case :
    0 < constrainCandleWidth 20 0 (1/10) 100 none none :=
  (constrainCandleWidth_pos 20 0 (1/10) 100 1 1 (by norm_num) (by norm_num)
    (by norm_num)).2.1

/-- C5 (violated by the code): a one-candle slice with all OHLC fields
equal gives `priceDiff = 0`, yet the render path's only early return
(`visibleData.length === 0`) does not fire, so the per-candle `priceToY`
calls are reached with a zero divisor (NaN coordinates in JavaScript)
instead of short-circuiting before the scale computation. -/
theorem degenerate_priceDiff_reaches_scale :
    (calculatePriceRange [⟨10, 10, 10, 10⟩] (1/10)).priceDiff = 0 ∧
    drawChartEarlyReturn [⟨10, 10, 10, 10⟩] = false ∧
    drawChartCandleYs ⟨10, 10, 10, 10⟩
        (calculatePriceRange [⟨10, 10, 10, 10⟩] (1/10)).priceMin
        (calculatePriceRange [⟨10, 10, 10, 10⟩] (1/10)).priceDiff 50 400
      = drawChartCandleYs ⟨10, 10, 10, 10⟩ 10 0 50 400 := by
  have hmin : (calculatePriceRange [⟨10, 10, 10, 10⟩] (1/10)).priceMin = 10 := by
    norm_num [calculatePriceRange, priceList, jsMinFrom, jsMaxFrom, List.foldl,
      min_def, max_def]
  have hdiff : (calculatePriceRange [⟨10, 10, 10, 10⟩] (1/10)).priceDiff = 0 := by
    norm_num [calculatePriceRange, priceList, jsMinFrom, jsMaxFrom, List.foldl,
      min_def, max_def]
  exact ⟨hdiff, rfl, by rw [hmin, hdiff]⟩
